import Mathlib

/-!
Shallow embedding of the what-vpn sniffer module (src/what_vpn/sniffers.py)
and proofs about the detection routines, the `Hit` result model and the
sniffer registry.

Python floats are modelled by `ℚ` (all confidence constants in the source,
1.0 / 0.9 / 0.8 / 0.2, are exact in both representations and every
comparison performed by the code is an order comparison against 0 or 1).
Python byte strings and text strings are both modelled by `String`.
`None`-able values are modelled by `Option`.
-/

/-- Result value type, mirroring the attrs class `Hit` of sniffers.py
(fields in attr.ib declaration order: confidence, name, version, components). -/
structure Hit where
  confidence : ℚ
  name : Option String
  version : Option String
  components : Option (List String)
  deriving DecidableEq, Repr

/-- Python truthiness of an optional string (`None` and `''` are falsy). -/
def truthyS : Option String → Bool
  | none => false
  | some s => !s.isEmpty

/-- Python truthiness of an optional list (`None` and `[]` are falsy). -/
def truthyL : Option (List String) → Bool
  | none => false
  | some l => !l.isEmpty

/-- Python `int()` conversion of a rational: truncation toward zero,
as used by the `'%d'` format directive. -/
def pyTruncQ (q : ℚ) : Int :=
  if q < 0 then -⌊-q⌋ else ⌊q⌋

/-- Hit.__bool__: `self.confidence > 0.0`. -/
def Hit.toBool (h : Hit) : Bool :=
  decide (0 < h.confidence)

/-- Hit.details: join the truthy fields, plus a percent rendering of the
confidence when it is below 1.0, with `', '`. -/
def Hit.details (h : Hit) : String :=
  let strings : List String :=
    (if truthyS h.name then [h.name.getD ""] else []) ++
    (if truthyS h.version then [h.version.getD ""] else []) ++
    (if truthyL h.components then [String.intercalate "+" (h.components.getD [])] else []) ++
    (if h.confidence < 1 then [toString (pyTruncQ (h.confidence * 100)) ++ "%"] else [])
  String.intercalate ", " strings

/-- Spec-side decomposition: the name/version/components entries of
`Hit.details`, without the confidence percentage. -/
def Hit.fieldStrings (h : Hit) : List String :=
  (if truthyS h.name then [h.name.getD ""] else []) ++
  (if truthyS h.version then [h.version.getD ""] else []) ++
  (if truthyL h.components then [String.intercalate "+" (h.components.getD [])] else [])

/-- Spec-side: the percentage string `details` uses for a confidence value. -/
def pctString (c : ℚ) : String :=
  toString (pyTruncQ (c * 100)) ++ "%"

/-- Spec-side: the `details` entry contributed by an optional string field. -/
def optEntryS : Option String → List String
  | none => []
  | some s => if s.isEmpty then [] else [s]

/-- Spec-side: the `details` entry contributed by the components field. -/
def optEntryC : Option (List String) → List String
  | none => []
  | some l => if l.isEmpty then [] else [String.intercalate "+" l]

/-- Spec-side: the `details` entry contributed by the confidence field. -/
def optEntryP (c : ℚ) : List String :=
  if c < 1 then [pctString c] else []

/-- The helper `_meaningless(x, *vals)`: return `x` unless it is one of the
known placeholder values, in which case return `None`. -/
def meaningless (x : Option String) (vals : List String) : Option String :=
  match x with
  | none => none
  | some s => if s ∈ vals then none else some s

/-- A Python numeric argument as passed to the Hit constructor: attrs
validates `confidence` with `attr.validators.instance_of(float)`. -/
inductive PyNum where
  | int (n : Int)
  | float (q : ℚ)
  deriving DecidableEq, Repr

/-- Whether a Python number is an instance of `float`. -/
def PyNum.isFloat : PyNum → Bool
  | .int _ => false
  | .float _ => true

/-- The rational value of a Python number. -/
def PyNum.val : PyNum → ℚ
  | .int n => (n : ℚ)
  | .float q => q

/-- The attrs-generated Hit initializer: runs the `instance_of(float)`
validator on `confidence` and raises `TypeError` when it is not a float. -/
def hitInit (confidence : PyNum) (name version : Option String)
    (components : Option (List String)) : Except String Hit :=
  if confidence.isFloat then
    .ok (Hit.mk confidence.val name version components)
  else
    .error "TypeError"

/-- C1: a Hit constructed with confidence c is truthy (detected) iff c > 0.0;
for every c ≤ 0.0 it is falsy. -/
theorem c1_hit_truthy_iff_pos (c : ℚ) (n v : Option String)
    (comps : Option (List String)) :
    (Hit.mk c n v comps).toBool = true ↔ 0 < c := by
  simp [Hit.toBool]

/-! ## HTTP transport and session model -/

/-- A session cookie (name and value), as stored in the requests cookie jar. -/
structure Cookie where
  name : String
  value : String
  deriving DecidableEq, Repr

/-- An outgoing HTTP request as issued by a sniffer. -/
structure Request where
  method : String
  url : String
  headers : List (String × String)
  body : String
  deriving DecidableEq, Repr

/-- An HTTP response as exposed by the transport: status code, reason phrase,
header mapping, body bytes (`content`), final URL after redirects (`url`),
cookies the response deposits into the session jar, and the raw byte stream
for streamed requests. -/
structure Response where
  status_code : Nat
  reason : String
  headers : List (String × String)
  content : String
  url : String
  cookies : List Cookie
  raw : String
  deriving DecidableEq, Repr

/-- A requests-style session: a deterministic transport plus the cookie jar
accumulated so far. -/
structure Session where
  transport : Request → Response
  cookies : List Cookie

/-- Issue one request on a session: the response's cookies are merged into
the session's jar. -/
def Session.doRequest (sess : Session) (method url : String)
    (headers : List (String × String)) (body : String) : Response × Session :=
  let r := sess.transport (Request.mk method url headers body)
  (r, Session.mk sess.transport (sess.cookies ++ r.cookies))

/-- Lower-case a string character by character (ASCII header names). -/
def lowerStr (s : String) : String :=
  String.mk (s.data.map Char.toLower)

/-- Python `s.startswith(pre)`. -/
def pyStartsWith (s pre : String) : Bool :=
  pre.data.isPrefixOf s.data

/-- Case-insensitive header lookup, `r.headers.get(k)` of requests. -/
def headersGet (hs : List (String × String)) (k : String) : Option String :=
  match hs.find? (fun p => lowerStr p.1 == lowerStr k) with
  | some p => some p.2
  | none => none

/-! ## String and regex helpers (Python `in`, `re.search`) -/

/-- Strip a literal prefix from a char list, or fail. -/
def stripPrefixL : List Char → List Char → Option (List Char)
  | [], s => some s
  | _ :: _, [] => none
  | p :: ps, c :: cs => if p = c then stripPrefixL ps cs else none

/-- Does `pat` occur at some position of `s` (Python `pat in s`)? -/
def strContainsAux (pat : List Char) : List Char → Bool
  | [] => pat.isEmpty
  | s =>
    match s with
    | [] => pat.isEmpty
    | _ :: cs => pat.isPrefixOf s || strContainsAux pat cs

/-- Python substring test `pat in s`. -/
def strContains (s pat : String) : Bool :=
  strContainsAux pat.data s.data

/-- Try the GlobalProtect version pattern
`<panos-version>([^<]+)</panos-version>` anchored at the head of the list:
the character class cannot match `<`, so the greedy take up to the next `<`
is the only candidate for the capture group. -/
def panosMatchAt (s : List Char) : Option String :=
  match stripPrefixL "<panos-version>".data s with
  | none => none
  | some rest =>
    let grp := rest.takeWhile (fun c => c ≠ '<')
    let rest2 := rest.dropWhile (fun c => c ≠ '<')
    if grp.isEmpty then none
    else if "</panos-version>".data.isPrefixOf rest2 then some (String.mk grp)
    else none

/-- `re.search` for the GlobalProtect version pattern: leftmost match wins. -/
def panosSearch : List Char → Option String
  | [] => none
  | s =>
    match s with
    | [] => none
    | _ :: cs =>
      match panosMatchAt s with
      | some v => some v
      | none => panosSearch cs

/-- First successful application of `f` over a list. -/
def firstSome {α β : Type} (f : α → Option β) : List α → Option β
  | [] => none
  | a :: as =>
    match f a with
    | some b => some b
    | none => firstSome f as

/-- All ways to split a nonempty leading digit run off a char list,
longest (greedy) first — the `\d+` backtracking order. -/
def digitSplits (s : List Char) : List (List Char × List Char) :=
  let n := (s.takeWhile Char.isDigit).length
  (List.range n).map (fun i => (s.take (n - i), s.drop (n - i)))

/-- Can `.+LIT` match the whole of a tail: at least one non-newline byte,
then zero or more non-newline bytes, then the literal. (The groups are
already captured, so only matchability is needed.) -/
def dotPlusLitAux (lit : List Char) : List Char → Bool
  | [] => false
  | s =>
    match s with
    | [] => false
    | c :: cs => lit.isPrefixOf s || (c ≠ '\n' && dotPlusLitAux lit cs)

/-- `.+LIT` against a tail of the subject. -/
def dotPlusLit (lit : List Char) : List Char → Bool
  | [] => false
  | c :: cs => c ≠ '\n' && dotPlusLitAux lit cs

/-- `\s+LIT` (Python byte-string `\s`: space, TAB, LF, CR, VT, FF). -/
def pyIsSpace (c : Char) : Bool :=
  c = ' ' || c = '\t' || c = '\n' || c = '\r' || c = '\x0b' || c = '\x0c'

/-- Helper for `\s+LIT`: after one whitespace byte, either the literal
starts here or another whitespace byte is consumed. -/
def wsPlusLitAux (lit : List Char) : List Char → Bool
  | [] => false
  | s =>
    match s with
    | [] => false
    | c :: cs => lit.isPrefixOf s || (pyIsSpace c && wsPlusLitAux lit cs)

/-- `\s+LIT` against a tail of the subject. -/
def wsPlusLit (lit : List Char) : List Char → Bool
  | [] => false
  | c :: cs => pyIsSpace c && wsPlusLitAux lit cs

/-- Try the pattern `(\d+-)?(\d+)TAIL` anchored at the head of the list,
with Python backtracking order (optional group greedy-first, `\d+` greedy),
returning capture group 2. `tail` decides the rest of the pattern. -/
def versionMatchAt (tail : List Char → Bool) (s : List Char) : Option String :=
  let alt1 :=
    firstSome (fun pr : List Char × List Char =>
      match pr.2 with
      | '-' :: rest =>
        firstSome (fun pr2 : List Char × List Char =>
          if tail pr2.2 then some (String.mk pr2.1) else none) (digitSplits rest)
      | _ => none) (digitSplits s)
  match alt1 with
  | some v => some v
  | none =>
    firstSome (fun pr2 : List Char × List Char =>
      if tail pr2.2 then some (String.mk pr2.1) else none) (digitSplits s)

/-- `re.search` for `(\d+-)?(\d+)TAIL`: scan positions left to right,
return group 2 of the first position that matches. -/
def versionSearch (tail : List Char → Bool) : List Char → Option String
  | [] => none
  | s =>
    match s with
    | [] => none
    | _ :: cs =>
      match versionMatchAt tail s with
      | some v => some v
      | none => versionSearch tail cs

/-- Check Point banner pattern
`(\d+-)?(\d+).+Check Point Software Technologies`, group 2. -/
def cpSearch (s : String) : Option String :=
  versionSearch (dotPlusLit "Check Point Software Technologies".data) s.data

/-- Barracuda banner pattern `(\d+-)?(\d+)\s+Barracuda Networks`, group 2. -/
def barracudaSearch (s : String) : Option String :=
  versionSearch (wsPlusLit "Barracuda Networks".data) s.data

/-- Remainder after the first occurrence of a marker in a char list. -/
def afterFirst (marker : List Char) : List Char → Option (List Char)
  | [] => none
  | s =>
    match s with
    | [] => none
    | _ :: cs =>
      match stripPrefixL marker s with
      | some rest => some rest
      | none => afterFirst marker cs

/-- Path component of `urllib.parse.urlsplit` for the URL shapes the
sniffers inspect: the part after the scheme and authority, cut at `?` or `#`. -/
def urlsplitPath (u : String) : String :=
  match afterFirst "://".data u.data with
  | some rest =>
    String.mk ((rest.dropWhile (fun c => c ≠ '/')).takeWhile
      (fun c => c ≠ '?' && c ≠ '#'))
  | none =>
    String.mk (u.data.takeWhile (fun c => c ≠ '?' && c ≠ '#'))

/-- Python `a and Hit(...)` where `a` is an optional numeric confidence:
`None` and `0.0` are falsy and yield no Hit. -/
def pyAndHit (c : Option ℚ) (mk : ℚ → Hit) : Option Hit :=
  match c with
  | none => none
  | some x => if x = 0 then none else some (mk x)

/-- Python `a or b` for an optional numeric confidence. -/
def pyOrQ (a : Option ℚ) (b : ℚ) : ℚ :=
  match a with
  | none => b
  | some x => if x = 0 then b else x

/-! ## The sniffers -/

/-- anyconnect: GET `/CSCOSSLC/tunnel` looking for an `X-Reason` header
(Cisco), else CONNECT with a bogus `webvpn=` cookie looking for the ocserv
reason phrase or the ocserv body-for-header bug. -/
def anyconnect (sess : Session) (server : String) : Option Hit × Session :=
  let p1 := sess.doRequest "GET" ("https://" ++ server ++ "/CSCOSSLC/tunnel") [] ""
  let r1 := p1.1
  if (headersGet r1.headers "X-Reason").isSome then
    (some (Hit.mk 1 (some "Cisco") (headersGet r1.headers "server") none), p1.2)
  else
    let p2 := p1.2.doRequest "CONNECT" ("https://" ++ server ++ "/CSCOSSLC/tunnel")
      [("Cookie", "webvpn=")] ""
    let r2 := p2.1
    if r2.reason == "Cookie is not acceptable" then
      (some (Hit.mk 1 (some "ocserv") (some "0.11.7+") none), p2.2)
    else if r2.raw.take 9 == "X-Reason:" then
      (some (Hit.mk 1 (some "ocserv") (some "0.8.0-0.11.6") none), p2.2)
    else (none, p2.2)

/-- juniper_nc: GET `/dana-na` with an `ncsrv` user-agent; a `DS*` cookie in
the jar gives confidence 1.0, a redirect to `/dana-na/auth/` gives 0.8. -/
def juniper_nc (sess : Session) (server : String) : Option Hit × Session :=
  let p := sess.doRequest "GET" ("https://" ++ server ++ "/dana-na")
    [("user-agent", "ncsrv"), ("NCP-Version", "3")] ""
  let r := p.1
  let sess1 := p.2
  let confidence : Option ℚ :=
    if sess1.cookies.any (fun c => pyStartsWith c.name "DS") then some 1
    else if pyStartsWith (urlsplitPath r.url) "/dana-na/auth/" then some 0.8
    else none
  (pyAndHit confidence
    (fun c => Hit.mk c none (headersGet r.headers "NCP-Version") none), sess1)

/-- Loop state of the global_protect sniffer: the `components`, `version`
and `hit` variables of the Python loop. -/
structure GpSt where
  components : List String
  version : Option String
  hit : Bool
  deriving DecidableEq, Repr

/-- One iteration of the global_protect loop over (component, path) pairs. -/
def gpStep (server : String) (acc : GpSt × Session) (cp : String × String) :
    GpSt × Session :=
  let st := acc.1
  let p := acc.2.doRequest "GET"
    ("https://" ++ server ++ "/" ++ cp.2 ++ "/prelogin.esp")
    [("user-agent", "PAN GlobalProtect")] ""
  let r := p.1
  if pyStartsWith ((headersGet r.headers "content-type").getD "") "application/xml"
      && strContains r.content "<prelogin-response>" then
    let comps := if strContains r.content "<status>Success</status>"
      then st.components ++ [cp.1] else st.components
    let version := match panosSearch r.content.data with
      | some v => some v
      | none => st.version
    (GpSt.mk comps version true, p.2)
  else (st, p.2)

/-- The global_protect probe loop over the portal and gateway endpoints. -/
def gpScan (sess : Session) (server : String) : GpSt × Session :=
  [("portal", "global-protect"), ("gateway", "ssl-vpn")].foldl
    (gpStep server) (GpSt.mk [] none false, sess)

/-- global_protect: probe both prelogin endpoints, accumulate components,
extract the PAN-OS version and suppress the placeholder value "1". -/
def global_protect (sess : Session) (server : String) : Option Hit × Session :=
  let res := gpScan sess server
  let st := res.1
  (if st.hit then
    some (Hit.mk 1 none (meaningless st.version ["1"]) (some st.components))
  else none, res.2)

/-- check_point: POST an empty client request to `/clients/abc` (confidence
1.0 on a `(CCCserverResponse` reply), then scan `/` for the version banner
(confidence 0.2 when only the banner matches). -/
def check_point (sess : Session) (server : String) : Option Hit × Session :=
  let p1 := sess.doRequest "POST" ("https://" ++ server ++ "/clients/abc")
    [("user-agent", "TRAC/986000125")] "(CCCclientRequest)"
  let r1 := p1.1
  let confidence0 : Option ℚ :=
    if pyStartsWith r1.content "(CCCserverResponse" then some 1 else none
  let p2 := p1.2.doRequest "GET" ("https://" ++ server ++ "/")
    [("user-agent", "TRAC/986000125")] ""
  let r2 := p2.1
  let m := cpSearch r2.content
  let confidence : Option ℚ :=
    match m with
    | some _ => some (pyOrQ confidence0 0.2)
    | none => confidence0
  (pyAndHit confidence (fun c => Hit.mk c none m none), p2.2)

/-- sstp: `SSTP_DUPLEX_POST` to the fixed GUID path; status 200 with the
64-bit-max content-length is the signature; the default IIS server banner
is suppressed. -/
def sstp (sess : Session) (server : String) : Option Hit × Session :=
  let p := sess.doRequest "SSTP_DUPLEX_POST"
    ("https://" ++ server ++ "/sra_%7BBA195980-CD49-458b-9E23-C84EE0ADCD75%7D/") [] ""
  let r := p.1
  (if r.status_code == 200
      && headersGet r.headers "content-length" == some "18446744073709551615" then
    some (Hit.mk 1 none
      (meaningless (headersGet r.headers "server") ["Microsoft-HTTPAPI/2.0"]) none)
  else none, p.2)

/-- openvpn: GET `/`; an `openvpn_sess_*` cookie in the jar is the signature. -/
def openvpn (sess : Session) (server : String) : Option Hit × Session :=
  let p := sess.doRequest "GET" ("https://" ++ server ++ "/") [] ""
  let r := p.1
  let sess1 := p.2
  (if sess1.cookies.any (fun c => pyStartsWith c.name "openvpn_sess_") then
    some (Hit.mk 1 none (headersGet r.headers "server") none)
  else none, sess1)

/-- barracuda: GET `/`; an `SSLX_SSESHID` cookie gives 1.0, the showLogon
redirect gives 0.9/0.8 depending on the banner, the banner alone gives 0.2. -/
def barracuda (sess : Session) (server : String) : Option Hit × Session :=
  let p := sess.doRequest "GET" ("https://" ++ server ++ "/") [] ""
  let r := p.1
  let sess1 := p.2
  let version : Option String := barracudaSearch r.content
  let confidence : Option ℚ :=
    if sess1.cookies.any (fun c => c.name == "SSLX_SSESHID") then some 1
    else if pyStartsWith (urlsplitPath r.url) "/default/showLogon.do" then
      some (if truthyS version then 0.9 else 0.8)
    else if truthyS version then some 0.2
    else none
  (pyAndHit confidence (fun c => Hit.mk c none version none), sess1)

/-- fortinet: GET `/remote/login`; a raw `Set-Cookie` header starting with
`SVPNCOOKIE` is the signature; the templated server banner
`xxxxxxxx-xxxxx` means confidence 1.0 with the version suppressed. -/
def fortinet (sess : Session) (server : String) : Option Hit × Session :=
  let p := sess.doRequest "GET" ("https://" ++ server ++ "/remote/login") [] ""
  let r := p.1
  (if pyStartsWith ((headersGet r.headers "set-cookie").getD "") "SVPNCOOKIE" then
    let srv := headersGet r.headers "server"
    let confidence : ℚ := if srv == some "xxxxxxxx-xxxxx" then 1 else 0.9
    some (Hit.mk confidence none (meaningless srv ["xxxxxxxx-xxxxx"]) none)
  else none, p.2)

/-- The sniffer registry, in source order. -/
def sniffers : List (Session → String → Option Hit × Session) :=
  [anyconnect, juniper_nc, global_protect, barracuda, check_point, sstp,
   openvpn, fortinet]

/-! ## Claims about the Hit model -/

/-- An entry of `details` built from a truthy test agrees with the
spec-side `optEntryS` decomposition. -/
theorem entryS_eq (o : Option String) :
    (if truthyS o then [o.getD ""] else []) = optEntryS o := by
  cases o with
  | none => simp [truthyS, optEntryS]
  | some s =>
    simp only [truthyS, optEntryS, Option.getD]
    by_cases hs : s.isEmpty <;> simp [hs]

/-- The components entry of `details` agrees with `optEntryC`. -/
theorem entryC_eq (o : Option (List String)) :
    (if truthyL o then [String.intercalate "+" (o.getD [])] else [])
      = optEntryC o := by
  cases o with
  | none => simp [truthyL, optEntryC]
  | some l =>
    simp only [truthyL, optEntryC, Option.getD]
    by_cases hl : l.isEmpty <;> simp [hl]

/-- C7: details() is the ", "-joined list, in the fixed order name, version,
"+"-joined components, percentage (only when confidence < 1.0), of exactly
the present (truthy) fields; absent fields contribute nothing. -/
theorem c7_details_join (c : ℚ) (n v : Option String)
    (comps : Option (List String)) :
    (Hit.mk c n v comps).details
      = String.intercalate ", "
          (optEntryS n ++ optEntryS v ++ optEntryC comps ++ optEntryP c) := by
  simp only [Hit.details, entryS_eq, entryC_eq, optEntryP, pctString]

/-- C6 (amended): details() appends a percentage entry exactly when
confidence < 1.0, and that entry is confidence·100 truncated toward zero
(Python's %d), not rounded to nearest. -/
theorem c6_percent_suffix (c : ℚ) (n v : Option String)
    (comps : Option (List String)) :
    (c < 1 → (Hit.mk c n v comps).details
        = String.intercalate ", "
            ((Hit.mk c n v comps).fieldStrings ++ [pctString c]))
    ∧ (1 ≤ c → (Hit.mk c n v comps).details
        = String.intercalate ", " (Hit.mk c n v comps).fieldStrings) := by
  constructor
  · intro h
    simp only [Hit.details, Hit.fieldStrings, pctString, if_pos h,
      List.append_assoc]
  · intro h
    simp only [Hit.details, Hit.fieldStrings, if_neg (not_lt.mpr h),
      List.append_nil]

/-- C6 witness: at confidence 0.8 the percentage entry is appended; at
confidence 1.0 it is not. -/
theorem c6_percent_suffix_witness :
    ((0.8 : ℚ) < 1 ∧ (Hit.mk (0.8 : ℚ) (some "Cisco") none none).details
        = String.intercalate ", "
            ((Hit.mk (0.8 : ℚ) (some "Cisco") none none).fieldStrings
              ++ [pctString (0.8 : ℚ)]))
    ∧ ((1 : ℚ) ≤ 1 ∧ (Hit.mk (1 : ℚ) (some "Cisco") none none).details
        = String.intercalate ", "
            (Hit.mk (1 : ℚ) (some "Cisco") none none).fieldStrings) :=
  ⟨⟨by norm_num,
    (c6_percent_suffix (0.8 : ℚ) (some "Cisco") none none).1 (by norm_num)⟩,
   ⟨le_refl 1,
    (c6_percent_suffix (1 : ℚ) (some "Cisco") none none).2 (le_refl 1)⟩⟩

/-- C6 counterexample: at confidence 0.556 the code renders "55%", but the
nearest integer to 0.556·100 is 56 (strictly nearer than 55), so the suffix
is not the confidence rounded to the nearest integer percent. -/
theorem c6_counterexample :
    (Hit.mk (0.556 : ℚ) none none none).details = "55%"
    ∧ |(0.556 : ℚ) * 100 - 56| < |(0.556 : ℚ) * 100 - 55|
    ∧ ("55%" : String) ≠ "56%" := by
  refine ⟨?_, ?_, by decide⟩
  case refine_2 =>
    rw [show (0.556 : ℚ) * 100 - 56 = -(2/5) by norm_num, abs_neg,
      abs_of_nonneg (by norm_num : (0 : ℚ) ≤ 2/5),
      show (0.556 : ℚ) * 100 - 55 = 3/5 by norm_num,
      abs_of_nonneg (by norm_num : (0 : ℚ) ≤ 3/5)]
    norm_num
  rw [Hit.details]
  simp only [truthyS, truthyL, Bool.false_eq_true, if_false, reduceIte]
  rw [if_pos (by norm_num : (0.556 : ℚ) < 1)]
  rw [show pyTruncQ ((0.556 : ℚ) * 100) = 55 by
    rw [pyTruncQ, if_neg (by norm_num),
      show ((0.556 : ℚ) * 100) = 278/5 by norm_num, Int.floor_eq_iff] <;>
      norm_num]
  decide

/-- C9 counterexample: the attrs validator `instance_of(float)` rejects the
integer 1, although 1 lies in (0.0, 1.0]: construction raises TypeError. -/
theorem c9_counterexample :
    hitInit (PyNum.int 1) none none none = Except.error "TypeError"
    ∧ 0 < (PyNum.int 1).val ∧ (PyNum.int 1).val ≤ 1 :=
  ⟨rfl, by norm_num [PyNum.val], by norm_num [PyNum.val]⟩

/-- C9 (amended): construction never fails when the confidence is a float in
(0.0, 1.0]; only non-float numerics such as the integer 1 are rejected. -/
theorem c9_construction_ok (q : ℚ) (n v : Option String)
    (comps : Option (List String)) (h0 : 0 < q) (h1 : q ≤ 1) :
    hitInit (PyNum.float q) n v comps = Except.ok (Hit.mk q n v comps) := rfl

/-- C9 witness: a float confidence of 0.5 constructs successfully. -/
theorem c9_construction_ok_witness :
    0 < (0.5 : ℚ) ∧ (0.5 : ℚ) ≤ 1
    ∧ hitInit (PyNum.float (0.5 : ℚ)) none none none
        = Except.ok (Hit.mk (0.5 : ℚ) none none none) :=
  ⟨by norm_num, by norm_num,
   c9_construction_ok (0.5 : ℚ) none none none (by norm_num) (by norm_num)⟩

/-! ## Claims about individual sniffers -/

/-- C5: for fortinet, an SVPNCOOKIE Set-Cookie with the templated server
banner "xxxxxxxx-xxxxx" gives confidence exactly 1.0 and version None;
with any other server string it gives confidence exactly 0.9 and that
string as the version. -/
theorem c5_fortinet_confidence (t : Request → Response) (ck : List Cookie)
    (server sc : String) (r : Response)
    (hr : t (Request.mk "GET" ("https://" ++ server ++ "/remote/login") [] "") = r)
    (hsc : headersGet r.headers "set-cookie" = some sc)
    (hpre : pyStartsWith sc "SVPNCOOKIE" = true) :
    (headersGet r.headers "server" = some "xxxxxxxx-xxxxx" →
      (fortinet (Session.mk t ck) server).1 = some (Hit.mk 1 none none none))
    ∧ (∀ s : String, headersGet r.headers "server" = some s →
        s ≠ "xxxxxxxx-xxxxx" →
        (fortinet (Session.mk t ck) server).1
          = some (Hit.mk (0.9 : ℚ) none (some s) none)) := by
  constructor
  · intro hsrv
    simp only [fortinet, Session.doRequest, hr, hsc, Option.getD, hpre,
      if_true, hsrv, meaningless]
    decide
  · intro s hsrv hne
    simp only [fortinet, Session.doRequest, hr, hsc, Option.getD, hpre,
      if_true, hsrv, meaningless]
    simp [beq_iff_eq, hne, List.mem_singleton]

/-- Fixture: a Fortinet response with the templated server banner. -/
def fortRespA : Response :=
  Response.mk 200 "OK"
    [("Set-Cookie", "SVPNCOOKIE=; path=/"), ("Server", "xxxxxxxx-xxxxx")]
    "" "" [] ""

/-- Fixture: a Fortinet response with a real server banner. -/
def fortRespB : Response :=
  Response.mk 200 "OK"
    [("Set-Cookie", "SVPNCOOKIE=; path=/"), ("Server", "FortiOS")]
    "" "" [] ""

/-- Fixture transport answering every request with `fortRespA`. -/
def tFortA : Request → Response := fun _ => fortRespA

/-- Fixture transport answering every request with `fortRespB`. -/
def tFortB : Request → Response := fun _ => fortRespB

/-- C5 witness: both branches of the fortinet confidence rule at concrete
transports. -/
theorem c5_fortinet_confidence_witness :
    (fortinet (Session.mk tFortA []) "h").1 = some (Hit.mk 1 none none none)
    ∧ (fortinet (Session.mk tFortB []) "h").1
        = some (Hit.mk (0.9 : ℚ) none (some "FortiOS") none) :=
  ⟨(c5_fortinet_confidence tFortA [] "h" "SVPNCOOKIE=; path=/" fortRespA
      rfl (by decide) (by decide)).1 (by decide),
   (c5_fortinet_confidence tFortB [] "h" "SVPNCOOKIE=; path=/" fortRespB
      rfl (by decide) (by decide)).2 "FortiOS" (by decide) (by decide)⟩

/-- C3: placeholder suppression. Whenever the extracted version string
equals the sniffer's placeholder literal — "1" for global_protect,
"Microsoft-HTTPAPI/2.0" for sstp, "xxxxxxxx-xxxxx" for fortinet — the
returned Hit carries version None; any other extracted string is reported
unchanged. -/
theorem c3_placeholder_suppression :
    (∀ (sess : Session) (server s : String),
      (gpScan sess server).1.hit = true →
      (gpScan sess server).1.version = some s →
      (global_protect sess server).1
        = some (Hit.mk 1 none (if s = "1" then none else some s)
            (some (gpScan sess server).1.components)))
    ∧ (∀ (t : Request → Response) (ck : List Cookie) (server s : String)
        (r : Response),
      t (Request.mk "SSTP_DUPLEX_POST"
          ("https://" ++ server ++ "/sra_%7BBA195980-CD49-458b-9E23-C84EE0ADCD75%7D/")
          [] "") = r →
      r.status_code = 200 →
      headersGet r.headers "content-length" = some "18446744073709551615" →
      headersGet r.headers "server" = some s →
      (sstp (Session.mk t ck) server).1
        = some (Hit.mk 1 none
            (if s = "Microsoft-HTTPAPI/2.0" then none else some s) none))
    ∧ (∀ (t : Request → Response) (ck : List Cookie) (server s sc : String)
        (r : Response),
      t (Request.mk "GET" ("https://" ++ server ++ "/remote/login") [] "") = r →
      headersGet r.headers "set-cookie" = some sc →
      pyStartsWith sc "SVPNCOOKIE" = true →
      headersGet r.headers "server" = some s →
      (fortinet (Session.mk t ck) server).1
        = some (Hit.mk (if s = "xxxxxxxx-xxxxx" then 1 else (0.9 : ℚ)) none
            (if s = "xxxxxxxx-xxxxx" then none else some s) none)) := by
  refine ⟨fun sess server s hh hv => ?_, fun t ck server s r hr h200 hcl hsrv => ?_,
    fun t ck server s sc r hr hsc hpre hsrv => ?_⟩
  · simp only [global_protect, hh, if_true, hv, meaningless]
    by_cases hs : s = "1" <;> simp [hs]
  · simp only [sstp, Session.doRequest, hr, h200, hcl, hsrv, meaningless]
    by_cases hs : s = "Microsoft-HTTPAPI/2.0" <;> simp [hs]
  · simp only [fortinet, Session.doRequest, hr, hsc, Option.getD, hpre,
      if_true, hsrv, meaningless]
    by_cases hs : s = "xxxxxxxx-xxxxx" <;> simp [hs]

/-- Fixture: a GlobalProtect prelogin response with the placeholder
PAN-OS version "1". -/
def gpRespV1 : Response :=
  Response.mk 200 "OK" [("Content-Type", "application/xml")]
    "<prelogin-response><status>Success</status><panos-version>1</panos-version></prelogin-response>"
    "u" [] ""

/-- Fixture transport answering every request with `gpRespV1`. -/
def tGpV1 : Request → Response := fun _ => gpRespV1

/-- Fixture: an SSTP response with the infinite content-length and the
default IIS banner. -/
def sstpResp : Response :=
  Response.mk 200 "OK"
    [("Content-Length", "18446744073709551615"),
     ("Server", "Microsoft-HTTPAPI/2.0")] "" "" [] ""

/-- Fixture transport answering every request with `sstpResp`. -/
def tSstp : Request → Response := fun _ => sstpResp

/-- C3 witness: the placeholder is suppressed for global_protect and sstp,
and a real Fortinet banner is passed through. -/
theorem c3_placeholder_suppression_witness :
    ((global_protect (Session.mk tGpV1 []) "h").1
      = some (Hit.mk 1 none (if ("1" : String) = "1" then none else some "1")
          (some (gpScan (Session.mk tGpV1 []) "h").1.components)))
    ∧ ((sstp (Session.mk tSstp []) "h").1
      = some (Hit.mk 1 none
          (if ("Microsoft-HTTPAPI/2.0" : String) = "Microsoft-HTTPAPI/2.0"
           then none else some "Microsoft-HTTPAPI/2.0") none))
    ∧ ((fortinet (Session.mk tFortB []) "h").1
      = some (Hit.mk
          (if ("FortiOS" : String) = "xxxxxxxx-xxxxx" then 1 else (0.9 : ℚ))
          none
          (if ("FortiOS" : String) = "xxxxxxxx-xxxxx" then none
           else some "FortiOS") none)) :=
  ⟨c3_placeholder_suppression.1 (Session.mk tGpV1 []) "h" "1"
      (by decide) (by decide),
   c3_placeholder_suppression.2.1 tSstp [] "h" "Microsoft-HTTPAPI/2.0"
      sstpResp rfl (by decide) (by decide) (by decide),
   c3_placeholder_suppression.2.2 tFortB [] "h" "FortiOS"
      "SVPNCOOKIE=; path=/" fortRespB rfl (by decide) (by decide) (by decide)⟩

/-- Fixture: the canned portal prelogin response of the C2 scenario. -/
def gpPortalResp : Response :=
  Response.mk 200 "OK" [("Content-Type", "application/xml")]
    "<prelogin-response><status>Success</status><panos-version>8.1.3</panos-version></prelogin-response>"
    "https://vpn.example.com/global-protect/prelogin.esp" [] ""

/-- Fixture: the canned gateway response of the C2 scenario, with an
arbitrary (non-matching) body. -/
def gpGatewayResp (body2 : String) : Response :=
  Response.mk 200 "OK" [("Content-Type", "application/xml")] body2
    "https://vpn.example.com/ssl-vpn/prelogin.esp" [] ""

/-- Fixture transport of the C2 scenario: the portal endpoint answers with
the canned prelogin XML, every other URL answers with the gateway body. -/
def gpTransport (body2 : String) : Request → Response := fun req =>
  if req.url = "https://vpn.example.com/global-protect/prelogin.esp"
  then gpPortalResp else gpGatewayResp body2

/-- C2: with the canned portal prelogin response and a non-matching gateway
body, global_protect returns a Hit with components ["portal"] and version
"8.1.3". -/
theorem c2_global_protect_portal (body2 : String)
    (h : strContains body2 "<prelogin-response>" = false) :
    (global_protect (Session.mk (gpTransport body2) []) "vpn.example.com").1
      = some (Hit.mk 1 none (some "8.1.3") (some ["portal"])) := by
  have hscan : gpScan (Session.mk (gpTransport body2) []) "vpn.example.com"
      = (GpSt.mk ["portal"] (some "8.1.3") true,
         Session.mk (gpTransport body2) []) := by
    show gpStep "vpn.example.com"
        (gpStep "vpn.example.com"
          (GpSt.mk [] none false, Session.mk (gpTransport body2) [])
          ("portal", "global-protect"))
        ("gateway", "ssl-vpn") = _
    rw [show gpStep "vpn.example.com"
          (GpSt.mk [] none false, Session.mk (gpTransport body2) [])
          ("portal", "global-protect")
        = (GpSt.mk ["portal"] (some "8.1.3") true,
           Session.mk (gpTransport body2) []) from rfl]
    rw [gpStep]
    simp only [Session.doRequest, gpTransport]
    rw [if_neg (by decide :
      ¬ (Request.mk "GET"
          ("https://" ++ "vpn.example.com" ++ "/" ++ "ssl-vpn" ++ "/prelogin.esp")
          [("user-agent", "PAN GlobalProtect")] "").url
        = "https://vpn.example.com/global-protect/prelogin.esp")]
    simp only [gpGatewayResp, h, Bool.and_false, Bool.false_eq_true, if_false]
    rfl
  simp only [global_protect, hscan, if_true, meaningless]
  decide

/-- C2 witness: a concrete non-matching gateway body. -/
theorem c2_global_protect_portal_witness :
    strContains "<html>generic login page</html>" "<prelogin-response>" = false
    ∧ (global_protect
        (Session.mk (gpTransport "<html>generic login page</html>") [])
        "vpn.example.com").1
      = some (Hit.mk 1 none (some "8.1.3") (some ["portal"])) :=
  ⟨by decide,
   c2_global_protect_portal "<html>generic login page</html>" (by decide)⟩

/-- C4: check_point returns confidence 1.0 when the client-request probe is
answered with "(CCCserverResponse"; otherwise confidence 0.2 when only the
version banner on "/" matches; the version is the banner regex's numeric
group whenever that regex matches; with neither signal there is no Hit. -/
theorem c4_check_point (t : Request → Response) (ck : List Cookie)
    (server : String) (r1 r2 : Response)
    (hr1 : t (Request.mk "POST" ("https://" ++ server ++ "/clients/abc")
        [("user-agent", "TRAC/986000125")] "(CCCclientRequest)") = r1)
    (hr2 : t (Request.mk "GET" ("https://" ++ server ++ "/")
        [("user-agent", "TRAC/986000125")] "") = r2) :
    (pyStartsWith r1.content "(CCCserverResponse" = true →
      (check_point (Session.mk t ck) server).1
        = some (Hit.mk 1 none (cpSearch r2.content) none))
    ∧ (pyStartsWith r1.content "(CCCserverResponse" = false →
      ∀ v : String, cpSearch r2.content = some v →
      (check_point (Session.mk t ck) server).1
        = some (Hit.mk (0.2 : ℚ) none (some v) none))
    ∧ (pyStartsWith r1.content "(CCCserverResponse" = false →
      cpSearch r2.content = none →
      (check_point (Session.mk t ck) server).1 = none) := by
  refine ⟨fun hpre => ?_, fun hpre v hv => ?_, fun hpre hv => ?_⟩
  · simp only [check_point, Session.doRequest, hr1, hr2, hpre, if_true]
    cases hm : cpSearch r2.content with
    | none => simp [hm, pyAndHit]
    | some v => simp [hm, pyAndHit, pyOrQ]
  · simp only [check_point, Session.doRequest, hr1, hr2, hpre,
      Bool.false_eq_true, if_false, hv]
    norm_num [pyAndHit, pyOrQ]
  · simp [check_point, Session.doRequest, hr1, hr2, hpre, hv, pyAndHit]

/-- Fixture: a Check Point CCC-format reply. -/
def cpRespCCC : Response :=
  Response.mk 200 "OK" [] "(CCCserverResponse)" "" [] ""

/-- Fixture: a front page carrying the Check Point version banner. -/
def cpRespBanner : Response :=
  Response.mk 200 "OK" [] "123 Check Point Software Technologies" "" [] ""

/-- Fixture: a generic page with neither Check Point signal. -/
def cpRespNone : Response :=
  Response.mk 200 "OK" [] "<html>hello</html>" "" [] ""

/-- Fixture transport: CCC reply on POST, banner page on GET. -/
def tCpBoth : Request → Response := fun req =>
  if req.method = "POST" then cpRespCCC else cpRespBanner

/-- Fixture transport: generic reply on POST, banner page on GET. -/
def tCpBanner : Request → Response := fun req =>
  if req.method = "POST" then cpRespNone else cpRespBanner

/-- C4 witness: the 1.0 branch and the 0.2 branch at concrete transports. -/
theorem c4_check_point_witness :
    (check_point (Session.mk tCpBoth []) "h").1
      = some (Hit.mk 1 none (some "123") none)
    ∧ (check_point (Session.mk tCpBanner []) "h").1
      = some (Hit.mk (0.2 : ℚ) none (some "123") none) := by
  constructor
  · have h := (c4_check_point tCpBoth [] "h" cpRespCCC cpRespBanner
      rfl rfl).1 (by decide)
    rw [show cpSearch cpRespBanner.content = some "123" from by decide] at h
    exact h
  · exact (c4_check_point tCpBanner [] "h" cpRespNone cpRespBanner
      rfl rfl).2.1 (by decide) "123" (by decide)

/-! ## Claims about the registry and session state -/

/-- Fixture transport: a bare 200 response with no headers and no cookies. -/
def tPlain : Request → Response := fun _ =>
  Response.mk 200 "OK" [] "" "" [] ""

/-- C8 counterexample: with identical transport responses, openvpn returns
a Hit when an `openvpn_sess_` cookie was already in the session jar before
the invocation, and no Hit on a fresh jar — the result depends on state
accumulated on the shared session. -/
theorem c8_counterexample :
    (openvpn (Session.mk tPlain [Cookie.mk "openvpn_sess_abc" "x"]) "srv").1
      = some (Hit.mk 1 none none none)
    ∧ (openvpn (Session.mk tPlain []) "srv").1 = none := by
  exact ⟨by decide, by decide⟩

/-- Spec-side: the loop state computed by one global_protect iteration,
as a function of the transport alone (no cookie jar involved). -/
def gpStepSt (server : String) (t : Request → Response) (st : GpSt)
    (cp : String × String) : GpSt :=
  let r := t (Request.mk "GET"
    ("https://" ++ server ++ "/" ++ cp.2 ++ "/prelogin.esp")
    [("user-agent", "PAN GlobalProtect")] "")
  if pyStartsWith ((headersGet r.headers "content-type").getD "") "application/xml"
      && strContains r.content "<prelogin-response>" then
    GpSt.mk
      (if strContains r.content "<status>Success</status>"
       then st.components ++ [cp.1] else st.components)
      (match panosSearch r.content.data with
       | some v => some v
       | none => st.version)
      true
  else st

/-- One global_protect iteration depends only on the transport and the
incoming loop state; it leaves the transport unchanged. -/
theorem gpStep_char (server : String) (acc : GpSt × Session)
    (cp : String × String) :
    (gpStep server acc cp).1 = gpStepSt server acc.2.transport acc.1 cp
    ∧ (gpStep server acc cp).2.transport = acc.2.transport := by
  refine ⟨?_, ?_⟩ <;> simp only [gpStep, gpStepSt, Session.doRequest] <;>
    split <;> rfl

/-- The global_protect loop state is a function of the transport alone. -/
theorem gpScan_fst (sess : Session) (server : String) :
    (gpScan sess server).1
      = gpStepSt server sess.transport
          (gpStepSt server sess.transport (GpSt.mk [] none false)
            ("portal", "global-protect"))
          ("gateway", "ssl-vpn") := by
  unfold gpScan
  simp only [List.foldl_cons, List.foldl_nil]
  obtain ⟨h1, h2⟩ := gpStep_char server (GpSt.mk [] none false, sess)
    ("portal", "global-protect")
  obtain ⟨h3, _⟩ := gpStep_char server
    (gpStep server (GpSt.mk [] none false, sess) ("portal", "global-protect"))
    ("gateway", "ssl-vpn")
  rw [h3, h2, h1]

/-- C8 (amended): sniffers that never read the session cookie jar —
anyconnect, global_protect, check_point, sstp and fortinet — return the
same result for the same transport regardless of cookies accumulated on
the session before the invocation; the jar-reading sniffers (openvpn,
juniper_nc, barracuda) do not enjoy this property. -/
theorem c8_cookie_state_independence :
    (∀ (t : Request → Response) (c1 c2 : List Cookie) (server : String),
      (anyconnect (Session.mk t c1) server).1
        = (anyconnect (Session.mk t c2) server).1)
    ∧ (∀ (t : Request → Response) (c1 c2 : List Cookie) (server : String),
      (global_protect (Session.mk t c1) server).1
        = (global_protect (Session.mk t c2) server).1)
    ∧ (∀ (t : Request → Response) (c1 c2 : List Cookie) (server : String),
      (check_point (Session.mk t c1) server).1
        = (check_point (Session.mk t c2) server).1)
    ∧ (∀ (t : Request → Response) (c1 c2 : List Cookie) (server : String),
      (sstp (Session.mk t c1) server).1
        = (sstp (Session.mk t c2) server).1)
    ∧ (∀ (t : Request → Response) (c1 c2 : List Cookie) (server : String),
      (fortinet (Session.mk t c1) server).1
        = (fortinet (Session.mk t c2) server).1) := by
  refine ⟨fun t c1 c2 server => ?_, fun t c1 c2 server => ?_,
    fun t c1 c2 server => ?_, fun t c1 c2 server => ?_,
    fun t c1 c2 server => ?_⟩
  · simp only [anyconnect, Session.doRequest, apply_ite Prod.fst]
  · simp only [global_protect, gpScan_fst]
  · simp only [check_point, Session.doRequest]
  · simp only [sstp, Session.doRequest]
  · simp only [fortinet, Session.doRequest]

/-- A Hit known to be a constructor application with positive confidence
has positive confidence. -/
theorem pos_of_mk_eq {hh : Hit} {q : ℚ} {n v : Option String}
    {cm : Option (List String)} (hq : 0 < q)
    (he : Hit.mk q n v cm = hh) : 0 < hh.confidence := he ▸ hq

/-- Every Hit produced by anyconnect has positive confidence. -/
theorem anyconnect_pos (sess : Session) (server : String) (hh : Hit)
    (hres : (anyconnect sess server).1 = some hh) : 0 < hh.confidence := by
  simp only [anyconnect, Session.doRequest, apply_ite Prod.fst] at hres
  split at hres
  · exact pos_of_mk_eq one_pos (Option.some.inj hres)
  · split at hres
    · exact pos_of_mk_eq one_pos (Option.some.inj hres)
    · split at hres
      · exact pos_of_mk_eq one_pos (Option.some.inj hres)
      · exact absurd hres (by simp)

/-- Every Hit produced by juniper_nc has positive confidence. -/
theorem juniper_nc_pos (sess : Session) (server : String) (hh : Hit)
    (hres : (juniper_nc sess server).1 = some hh) : 0 < hh.confidence := by
  simp only [juniper_nc, Session.doRequest] at hres
  split at hres
  · norm_num [pyAndHit] at hres
    exact pos_of_mk_eq one_pos hres
  · split at hres
    · norm_num [pyAndHit] at hres
      exact pos_of_mk_eq (by norm_num) hres
    · simp [pyAndHit] at hres

/-- Every Hit produced by global_protect has positive confidence. -/
theorem global_protect_pos (sess : Session) (server : String) (hh : Hit)
    (hres : (global_protect sess server).1 = some hh) : 0 < hh.confidence := by
  simp only [global_protect] at hres
  split at hres
  · exact pos_of_mk_eq one_pos (Option.some.inj hres)
  · exact absurd hres (by simp)

/-- Every Hit produced by barracuda has positive confidence. -/
theorem barracuda_pos (sess : Session) (server : String) (hh : Hit)
    (hres : (barracuda sess server).1 = some hh) : 0 < hh.confidence := by
  simp only [barracuda, Session.doRequest] at hres
  split at hres
  · norm_num [pyAndHit] at hres
    exact pos_of_mk_eq one_pos hres
  · split at hres
    · split at hres
      · norm_num [pyAndHit] at hres
        exact pos_of_mk_eq (by norm_num) hres
      · norm_num [pyAndHit] at hres
        exact pos_of_mk_eq (by norm_num) hres
    · split at hres
      · norm_num [pyAndHit] at hres
        exact pos_of_mk_eq (by norm_num) hres
      · simp [pyAndHit] at hres

/-- Every Hit produced by check_point has positive confidence. -/
theorem check_point_pos (sess : Session) (server : String) (hh : Hit)
    (hres : (check_point sess server).1 = some hh) : 0 < hh.confidence := by
  simp only [check_point, Session.doRequest] at hres
  split at hres
  · split at hres
    · norm_num [pyAndHit, pyOrQ] at hres
      exact pos_of_mk_eq one_pos hres
    · norm_num [pyAndHit, pyOrQ] at hres
      exact pos_of_mk_eq (by norm_num) hres
  · split at hres
    · norm_num [pyAndHit] at hres
      exact pos_of_mk_eq one_pos hres
    · simp [pyAndHit] at hres

/-- Every Hit produced by sstp has positive confidence. -/
theorem sstp_pos (sess : Session) (server : String) (hh : Hit)
    (hres : (sstp sess server).1 = some hh) : 0 < hh.confidence := by
  simp only [sstp, Session.doRequest, apply_ite Prod.fst] at hres
  split at hres
  · exact pos_of_mk_eq one_pos (Option.some.inj hres)
  · exact absurd hres (by simp)

/-- Every Hit produced by openvpn has positive confidence. -/
theorem openvpn_pos (sess : Session) (server : String) (hh : Hit)
    (hres : (openvpn sess server).1 = some hh) : 0 < hh.confidence := by
  simp only [openvpn, Session.doRequest] at hres
  split at hres
  · exact pos_of_mk_eq one_pos (Option.some.inj hres)
  · exact absurd hres (by simp)

/-- Every Hit produced by fortinet has positive confidence. -/
theorem fortinet_pos (sess : Session) (server : String) (hh : Hit)
    (hres : (fortinet sess server).1 = some hh) : 0 < hh.confidence := by
  simp only [fortinet, Session.doRequest] at hres
  split at hres
  · refine pos_of_mk_eq ?_ (Option.some.inj hres)
    split <;> norm_num
  · exact absurd hres (by simp)

/-- C10: every sniffer in the registry returns either no Hit or a Hit whose
confidence is strictly positive — never a present-but-falsy Hit. -/
theorem c10_registry_confidence_pos
    (f : Session → String → Option Hit × Session) (hf : f ∈ sniffers)
    (t : Request → Response) (ck : List Cookie) (server : String) (hh : Hit)
    (hres : (f (Session.mk t ck) server).1 = some hh) : 0 < hh.confidence := by
  simp only [sniffers, List.mem_cons, List.not_mem_nil, or_false] at hf
  rcases hf with rfl | rfl | rfl | rfl | rfl | rfl | rfl | rfl
  · exact anyconnect_pos _ _ _ hres
  · exact juniper_nc_pos _ _ _ hres
  · exact global_protect_pos _ _ _ hres
  · exact barracuda_pos _ _ _ hres
  · exact check_point_pos _ _ _ hres
  · exact sstp_pos _ _ _ hres
  · exact openvpn_pos _ _ _ hres
  · exact fortinet_pos _ _ _ hres

/-- C10 witness: fortinet is registered and its concrete Hit at `tFortA`
has positive confidence. -/
theorem c10_registry_confidence_pos_witness :
    fortinet ∈ sniffers
    ∧ (fortinet (Session.mk tFortA []) "h").1 = some (Hit.mk 1 none none none)
    ∧ 0 < (Hit.mk 1 none none none).confidence :=
  ⟨by simp [sniffers], by decide,
   c10_registry_confidence_pos fortinet (by simp [sniffers]) tFortA [] "h"
     (Hit.mk 1 none none none) (by decide)⟩
